import Mathlib

/-!
Shallow embedding of the SOSYS material-automation core
(`processor.py`, `data_handlers.py`, `config.py`) together with proofs
of the specification claims about it.

Strings are modelled by Lean `String` (ASCII case mapping), Python floats
by `ℚ`, pandas data frames by lists of typed rows, and the `try/except`
boundary of the transform engine by an `Except`-valued inner computation
wrapped in a total function.
-/

namespace PKLPLN

/-! ### Text utilities (processor.py, normalize_text and friends) -/

/-- Python whitespace class as matched by a bare regular-expression
whitespace escape and by the default strip, restricted to ASCII. -/
def isPySpace (c : Char) : Bool :=
  c = ' ' || c = '\t' || c = '\n' || c = '\r' || c = '\x0b' || c = '\x0c'

/-- Python lower-casing of a string (ASCII range). -/
def lowerStr (s : String) : String :=
  String.mk (s.data.map Char.toLower)

/-- Python upper-casing of a string (ASCII range). -/
def upperStr (s : String) : String :=
  String.mk (s.data.map Char.toUpper)

/-- Trim leading and trailing whitespace from a character list. -/
def stripList (l : List Char) : List Char :=
  ((l.dropWhile isPySpace).reverse.dropWhile isPySpace).reverse

/-- Python string strip. -/
def strip (s : String) : String :=
  String.mk (stripList s.data)

/-- Replace every maximal run of whitespace by a single space, as the
substitution of one-or-more whitespace by a single space does. -/
def collapseWs : List Char → List Char
  | [] => []
  | [c] => [if isPySpace c then ' ' else c]
  | c1 :: c2 :: cs =>
    if isPySpace c1 && isPySpace c2 then collapseWs (c2 :: cs)
    else (if isPySpace c1 then ' ' else c1) :: collapseWs (c2 :: cs)

/-- `normalize_text` from processor.py: lower-case, strip, then collapse
internal whitespace runs to single spaces.  Non-string input (which the
source maps to the empty string) is outside this model, whose inputs are
strings.  The memoization decorator caches results by exact input value
and does not change the function's value, so it is not modelled. -/
def normalize_text (text : String) : String :=
  String.mk (collapseWs (stripList (text.data.map Char.toLower)))

/-! ### Similarity scoring (processor.py, calculate_similarity)

The scorer used on the primary path is the rapidfuzz `fuzz.ratio`, which
is the normalized Indel similarity: with `lcs` the longest common
subsequence length, the similarity of `s1` and `s2` on a 0-100 scale is
`100 * 2 * lcs / (len s1 + len s2)`. -/

/-- Inner loop of the longest-common-subsequence length: one row of the
recurrence, parameterized by the solution for the tail of the first
list. -/
def lcsAux (a : Char) (tailLcs : List Char → Nat) : List Char → Nat
  | [] => 0
  | b :: bs =>
    if a = b then tailLcs bs + 1
    else max (lcsAux a tailLcs bs) (tailLcs (b :: bs))

/-- Longest common subsequence length of two character lists, by the
standard recurrence. -/
def lcs : List Char → List Char → Nat
  | [], _ => 0
  | a :: as, b => lcsAux a (lcs as) b

theorem lcs_nil_left (b : List Char) : lcs [] b = 0 := rfl

theorem lcs_nil_right (a : List Char) : lcs a [] = 0 := by
  cases a <;> rfl

/-- The usual two-sided recurrence of `lcs`. -/
theorem lcs_cons_cons (x y : Char) (as bs : List Char) :
    lcs (x :: as) (y :: bs) =
      if x = y then lcs as bs + 1
      else max (lcs (x :: as) bs) (lcs as (y :: bs)) := rfl

/-- Modelled library function: rapidfuzz `fuzz.ratio`, the normalized
Indel similarity of the two strings on a 0-100 scale (two empty strings
score 100).  No preprocessing of the inputs happens here. -/
def fuzzRatio (s1 s2 : String) : ℚ :=
  if s1.length + s2.length = 0 then 100
  else 100 * (2 * (lcs s1.data s2.data : ℚ)) / ((s1.length + s2.length : Nat) : ℚ)

/-- `calculate_similarity` from processor.py: normalize both strings,
return 0 if either normal form is empty, 1 on equal normal forms, and
otherwise the `fuzz.ratio` of the normal forms scaled to the unit
interval. -/
def calculate_similarity (str1 str2 : String) : ℚ :=
  if normalize_text str1 = "" ∨ normalize_text str2 = "" then 0
  else if normalize_text str1 = normalize_text str2 then 1
  else fuzzRatio (normalize_text str1) (normalize_text str2) / 100

/-! ### Catalog index and fuzzy lookup (processor.py, fuzzy_match_material) -/

/-- One master-catalog entry: the code and type stored under a material
name (columns `Kode` and `Tipe`). -/
structure MatEntry where
  kode : String
  tipe : String
deriving DecidableEq

/-- The master dictionary built by `load_master_from_dataframe`: a mapping
from material name to its entry, modelled as an association list in
insertion order with unique keys. -/
abbrev Catalog := List (String × MatEntry)

/-- Modelled library function: rapidfuzz `process.extractOne` over a list
of choices with scorer `fuzz.ratio` and a 0-100 `score_cutoff`: candidates
scoring below the cutoff are dropped, the best score wins, and the first
choice among ties is kept.  No preprocessing of query or choices. -/
def extractOne (query : String) (choices : List String) (cutoff : ℚ) :
    Option (String × ℚ) :=
  choices.foldl (fun acc k =>
    let s := fuzzRatio query k
    if s < cutoff then acc
    else match acc with
      | none => some (k, s)
      | some (_, bs) => if s > bs then some (k, s) else acc) none

/-- `fuzzy_match_material` from processor.py on its primary (rapidfuzz)
path: guard against empty input or empty dictionary, normalize the input
name, then run `extractOne` against the raw dictionary keys with the
threshold rescaled to 0-100, scaling a hit's score back to 0-1. -/
def fuzzy_match_material (material_name : String) (master_dict : Catalog)
    (threshold : ℚ) : Option (String × ℚ) :=
  if material_name = "" ∨ master_dict = [] then none
  else
    match extractOne (normalize_text material_name) (master_dict.map Prod.fst)
        (threshold * 100) with
    | some (k, s) => some (k, s / 100)
    | none => none

/-- `fuzzy_match_material` from processor.py on its fallback (difflib)
path: iterate over the dictionary keys scoring each with
`calculate_similarity` (which normalizes both sides), keep the first
strict maximum, and return it only when the best score reaches the
threshold.  The fallback's sequence-matcher ratio is modelled by the same
bounded character ratio as the primary scorer; a best score reaching the
threshold with no recorded key (possible only for a nonpositive
threshold) is collapsed into the no-match result. -/
def fuzzy_match_material_difflib (material_name : String)
    (master_dict : Catalog) (threshold : ℚ) : Option (String × ℚ) :=
  if material_name = "" ∨ master_dict = [] then none
  else
    let r := (master_dict.map Prod.fst).foldl (fun acc k =>
      let s := calculate_similarity material_name k
      if s > acc.2 then (some k, s) else acc) (none, 0)
    if r.2 ≥ threshold then
      match r.1 with
      | some k => some (k, r.2)
      | none => none
    else none

/-! ### Column mapper (processor.py, huruf_ke_angka and validate_config) -/

/-- `huruf_ke_angka` from processor.py: upper-case and trim the input,
fold every character into a base-26 accumulator via its character code
distance from the letter before A, and subtract one at the end.  The
source performs no input validation: every string yields an integer. -/
def huruf_ke_angka (huruf : String) : ℤ :=
  ((strip (upperStr huruf)).data.foldl
    (fun angka c => angka * 26 + ((c.toNat : ℤ) - 64)) 0) - 1

/-- A value stored in the column-configuration dictionary: the column
indices are integers, and anything else (such as a stray float) is
skipped by validation. -/
inductive ConfigVal where
  | int (n : ℤ)
  | num (q : ℚ)
  | str (s : String)
deriving DecidableEq

/-- The column-configuration dictionary passed to the transform. -/
abbrev Config := List (String × ConfigVal)

/-- `validate_config` from processor.py reduced to its boolean verdict:
every integer entry must be at most the last column index and
nonnegative; non-integer entries are skipped. -/
def validate_config (config : Config) (ncols : Nat) : Bool :=
  config.all fun kv =>
    match kv.2 with
    | .int n => decide (n ≤ (ncols : ℤ) - 1) && decide (0 ≤ n)
    | _ => true

/-- Dictionary access `config[key]` expecting an integer column index:
a missing key raises, and a non-integer value makes the subsequent
positional column access raise; both surface as errors caught at the
transform boundary. -/
def cfgGetInt (config : Config) (key : String) : Except String ℤ :=
  match config.lookup key with
  | some (.int n) => .ok n
  | some _ => .error "column index is not an integer"
  | none => .error "KeyError"

/-- Extraction of the six configured column offsets, in source order. -/
def cfgCols (config : Config) :
    Except String (Nat × Nat × Nat × Nat × Nat × Nat) := do
  let u ← cfgGetInt config "c_uraian"
  let m ← cfgGetInt config "c_mat"
  let p ← cfgGetInt config "c_psg"
  let b ← cfgGetInt config "c_bkr"
  let s ← cfgGetInt config "c_satuan"
  let t ← cfgGetInt config "c_total"
  return (u.toNat, m.toNat, p.toNat, b.toNat, s.toNat, t.toNat)

/-! ### Vendor grid model -/

/-- One spreadsheet cell of the raw vendor grid: text, a numeric value,
or a missing value (NaN). -/
inductive Cell where
  | str (s : String)
  | num (q : ℚ)
  | empty
deriving DecidableEq

/-- String form of a cell as produced by an `astype(str)` conversion:
missing values print as the literal "nan" and integral numeric cells
print with a trailing ".0" as Python floats do.  The decimal rendering of
non-integral floats is abstracted as a fraction; no claim depends on the
string form of a numeric cell. -/
def cellStr : Cell → String
  | .str s => s
  | .num q => if q.den = 1 then toString q.num ++ ".0"
              else toString q.num ++ "/" ++ toString q.den
  | .empty => "nan"

/-- Value of a digit run. -/
def digitsVal (l : List Char) : Nat :=
  l.foldl (fun a c => a * 10 + (c.toNat - 48)) 0

/-- Plain decimal parsing (optional sign, integer part, optional fraction
part) as performed by coercing numeric conversion on a string cell;
anything else (including scientific notation, which is not modelled)
coerces to a missing value. -/
def parseNum (s : String) : Option ℚ :=
  let l := stripList s.data
  let signed : ℚ × List Char :=
    match l with
    | '-' :: rest => (-1, rest)
    | '+' :: rest => (1, rest)
    | _ => (1, l)
  let intPart := signed.2.takeWhile Char.isDigit
  let rest := signed.2.dropWhile Char.isDigit
  match rest with
  | [] => if intPart = [] then none else some (signed.1 * digitsVal intPart)
  | '.' :: frac =>
    if frac.all Char.isDigit ∧ (intPart ≠ [] ∨ frac ≠ []) then
      some (signed.1 *
        ((digitsVal intPart : ℚ) + (digitsVal frac : ℚ) / (10 ^ frac.length)))
    else none
  | _ => none

/-- Numeric form of a cell as produced by coercing numeric conversion
followed by filling missing values with 0: numeric cells pass through,
numeric-looking strings parse, everything else becomes 0. -/
def cellNum : Cell → ℚ
  | .num q => q
  | .str s => (parseNum s).getD 0
  | .empty => 0

/-- The raw vendor grid: a declared column count together with the rows
of cells (the data frame handed to the transform). -/
structure Grid where
  ncols : Nat
  rows : List (List Cell)
deriving DecidableEq

/-- Positional cell access within a row; rows of a rectangular grid hold
`ncols` cells, and validation keeps every configured offset in range. -/
def cellAt (row : List Cell) (j : Nat) : Cell :=
  row.getD j .empty

/-! ### Working rows, filtering, and the transform

(processor.py, proses_data_vendor) -/

/-- A working row of the intermediate frame built by the transform:
the relevant columns projected and coerced. -/
structure WorkRow where
  nama : String
  vol_mat : ℚ
  vol_psg : ℚ
  vol_bkr : ℚ
  satuan : String
  total : ℚ
deriving DecidableEq

/-- Projection of one raw grid row to a working row at the six configured
offsets: the name stripped, the three volumes and the total numerically
coerced with missing values as 0, and the unit stripped and upper-cased. -/
def projectRow (cu cm cp cb cs ct : Nat) (row : List Cell) : WorkRow :=
  { nama := strip (cellStr (cellAt row cu))
  , vol_mat := cellNum (cellAt row cm)
  , vol_psg := cellNum (cellAt row cp)
  , vol_bkr := cellNum (cellAt row cb)
  , satuan := upperStr (strip (cellStr (cellAt row cs)))
  , total := cellNum (cellAt row ct) }

/-- Prefix test on character lists. -/
def startsList : List Char → List Char → Bool
  | [], _ => true
  | _ :: _, [] => false
  | p :: ps, c :: cs => (p == c) && startsList ps cs

/-- Substring test on character lists: the pattern occurs at some
position of the text. -/
def containsSub (pat : List Char) : List Char → Bool
  | [] => startsList pat []
  | c :: cs => startsList pat (c :: cs) || containsSub pat cs

/-- Case-insensitive substring containment, as the pandas case-folded
containment test performs for a pattern without special characters. -/
def containsCI (s pat : String) : Bool :=
  containsSub (lowerStr pat).data (lowerStr s).data

/-- The vectorized pre-filter mask of the transform: total strictly
positive, lower-cased name not the literal "nan", and name not containing
"TOTAL" case-insensitively. -/
def maskValid (w : WorkRow) : Bool :=
  decide (0 < w.total) && !(lowerStr w.nama == "nan")
    && !(containsCI w.nama "TOTAL")

/-- Result of resolving one material name: code, type, and the fuzzy
provenance columns (score as a percentage and the matched key), which are
absent on an exact hit and on a miss. -/
structure LookupRes where
  kode : String
  tipe : String
  matchScore : Option ℚ
  matchedWith : Option String
deriving DecidableEq

/-- `lookup_with_fuzzy` from proses_data_vendor: exact dictionary lookup
first with no provenance recorded; only on a miss, fuzzy matching, whose
hit records the percentage score and the matched key.  A fuzzy hit always
names a dictionary key, so the default entry of the inner lookup is
unreachable. -/
def lookup_with_fuzzy (master_dict : Catalog) (fuzzy_threshold : ℚ)
    (nama : String) : LookupRes :=
  match master_dict.lookup nama with
  | some e => ⟨e.kode, e.tipe, none, none⟩
  | none =>
    match fuzzy_match_material nama master_dict fuzzy_threshold with
    | some (m, score) =>
      let e := (master_dict.lookup m).getD ⟨"-", "-"⟩
      ⟨e.kode, e.tipe, some (score * 100), some m⟩
    | none => ⟨"-", "-", none, none⟩

/-- One row of the final result table, carrying the eight output columns
Kode Material, Nama Material, Tipe Material, Referensi Jumlah, Jumlah
Material Gudang (PLN), Jumlah Material Dipesan (Tunai), Jumlah Pasang and
Jumlah Bongkar, in that order.  The fuzzy provenance columns are not part
of the output. -/
structure ResultRow where
  kode : String
  nama : String
  tipe : String
  ref : ℚ
  gudang : ℚ
  dipesan : ℚ
  pasang : ℚ
  bongkar : ℚ
deriving DecidableEq

/-- Emission of one result row from a surviving working row: resolved
code and type, the constant reference count 1, the PLN/Tunai split of the
material volume decided by whether the unit label equals "PLN", and the
install and removal volumes copied. -/
def mkResultRow (master_dict : Catalog) (fuzzy_threshold : ℚ)
    (w : WorkRow) : ResultRow :=
  let lk := lookup_with_fuzzy master_dict fuzzy_threshold w.nama
  { kode := lk.kode
  , nama := w.nama
  , tipe := lk.tipe
  , ref := 1
  , gudang := if w.satuan = "PLN" then w.vol_mat else 0
  , dipesan := if w.satuan ≠ "PLN" then w.vol_mat else 0
  , pasang := w.vol_psg
  , bongkar := w.vol_bkr }

/-- The body of `proses_data_vendor` inside its exception handler:
an invalid configuration or an empty filtered frame yields the empty
table; a failing dictionary or column access yields an error, caught by
the wrapper.  The fuzzy threshold is the literal 0.8 fixed in the body
(the comment in the source reads "Fixed at 80%"). -/
def prosesInner (df_v : Grid) (master_dict : Catalog) (config : Config) :
    Except String (List ResultRow) :=
  if validate_config config df_v.ncols = false then .ok []
  else
    match cfgCols config with
    | .error e => .error e
    | .ok (c_u, c_m, c_p, c_b, c_s, c_t) =>
      if (df_v.rows.map (projectRow c_u c_m c_p c_b c_s c_t)).filter maskValid
          = [] then .ok []
      else .ok (((df_v.rows.map (projectRow c_u c_m c_p c_b c_s c_t)).filter
          maskValid).map (mkResultRow master_dict (8/10)))

/-- `proses_data_vendor` from processor.py: the whole body runs inside a
try/except whose handler returns an empty table, so the function is total
and never propagates a failure to its caller. -/
def proses_data_vendor (df_v : Grid) (master_dict : Catalog)
    (config : Config) : List ResultRow :=
  match prosesInner df_v master_dict config with
  | .ok t => t
  | .error _ => []

/-! ### Summary statistics (processor.py, generate_summary) -/

/-- `generate_summary` from processor.py applied to a table of the
transform's output rows, returned as the ordered key-value dictionary the
source builds.  The empty table takes the early-return branch with only
seven keys.  The transform's result columns do not include the Match
Score column, so the column-membership test in the source always falls to
its zero branch here. -/
def generate_summary (df_hasil : List ResultRow) : List (String × ℚ) :=
  if df_hasil = [] then
    [("total_items", 0), ("matched", 0), ("unmatched", 0),
     ("fuzzy_matched", 0), ("exact_matched", 0), ("pln_items", 0),
     ("tunai_items", 0)]
  else
    let matched : ℚ := df_hasil.countP (fun r => r.kode != "-")
    let fuzzy_matched : ℚ := 0
    [("total_items", (df_hasil.length : ℚ)),
     ("matched", matched),
     ("exact_matched", matched - fuzzy_matched),
     ("fuzzy_matched", fuzzy_matched),
     ("unmatched", (df_hasil.countP (fun r => r.kode == "-") : ℚ)),
     ("pln_items", (df_hasil.countP (fun r => decide (0 < r.gudang)) : ℚ)),
     ("tunai_items", (df_hasil.countP (fun r => decide (0 < r.dipesan)) : ℚ)),
     ("total_vol_mat", (df_hasil.map ResultRow.gudang).sum +
        (df_hasil.map ResultRow.dipesan).sum),
     ("total_pasang", (df_hasil.map ResultRow.pasang).sum),
     ("total_bongkar", (df_hasil.map ResultRow.bongkar).sum)]

/-! ### Reconciliation pass (data_handlers.py, update_material_codes) -/

/-- The two-tier resolution applied by the reconciliation pass to one
stripped, nonempty, non-"nan" name: exact dictionary lookup first, fuzzy
matching at threshold 0.8 only on a miss, and the no-match sentinels
otherwise.  A fuzzy hit always names a dictionary key, so the default of
the inner lookup is unreachable. -/
def reconTarget (master_dict : Catalog) (nama_input : String) :
    String × String :=
  match master_dict.lookup nama_input with
  | some e => (e.kode, e.tipe)
  | none =>
    match fuzzy_match_material nama_input master_dict (8/10) with
    | some (m, _) =>
      let e := (master_dict.lookup m).getD ⟨"-", "-"⟩
      (e.kode, e.tipe)
    | none => ("-", "-")

/-- Per-row body of `update_material_codes`: skip rows whose stripped
name is empty or "nan"; otherwise resolve the current name and overwrite
the stored code and type when they differ, reporting whether a change was
made. -/
def updateRow (master_dict : Catalog) (r : ResultRow) : ResultRow × Bool :=
  if strip r.nama = "" ∨ lowerStr (strip r.nama) = "nan" then (r, false)
  else
    let t := reconTarget master_dict (strip r.nama)
    if r.kode ≠ t.1 ∨ r.tipe ≠ t.2 then
      ({ r with kode := t.1, tipe := t.2 }, true)
    else (r, false)

/-- `update_material_codes` from data_handlers.py: apply the per-row
update to every row of the edited table and report whether any row
changed. -/
def update_material_codes (edited_df : List ResultRow)
    (master_dict : Catalog) : List ResultRow × Bool :=
  (edited_df.map (fun r => (updateRow master_dict r).1),
   edited_df.any (fun r => (updateRow master_dict r).2))

/-! ### Lemmas about the similarity scorer -/

theorem lcs_le_left : ∀ a b : List Char, lcs a b ≤ a.length := by
  intro a
  induction a with
  | nil => intro b; rw [lcs_nil_left]; exact Nat.zero_le _
  | cons x as ih =>
    intro b
    induction b with
    | nil => rw [lcs_nil_right]; exact Nat.zero_le _
    | cons y bs ihb =>
      rw [lcs_cons_cons]
      by_cases h : x = y
      · simp only [if_pos h, List.length_cons]
        exact Nat.succ_le_succ (ih bs)
      · simp only [if_neg h, List.length_cons]
        exact Nat.max_le.mpr
          ⟨ihb, Nat.le_trans (ih (y :: bs)) (Nat.le_succ _)⟩

theorem lcs_le_right : ∀ a b : List Char, lcs a b ≤ b.length := by
  intro a
  induction a with
  | nil => intro b; rw [lcs_nil_left]; exact Nat.zero_le _
  | cons x as ih =>
    intro b
    induction b with
    | nil => rw [lcs_nil_right]; exact Nat.zero_le _
    | cons y bs ihb =>
      rw [lcs_cons_cons]
      by_cases h : x = y
      · simp only [if_pos h, List.length_cons]
        exact Nat.succ_le_succ (ih bs)
      · simp only [if_neg h, List.length_cons]
        exact Nat.max_le.mpr
          ⟨Nat.le_trans ihb (Nat.le_succ _), ih (y :: bs)⟩

theorem lcs_comm : ∀ a b : List Char, lcs a b = lcs b a := by
  intro a
  induction a with
  | nil => intro b; rw [lcs_nil_left, lcs_nil_right]
  | cons x as ih =>
    intro b
    induction b with
    | nil => rw [lcs_nil_left, lcs_nil_right]
    | cons y bs ihb =>
      rw [lcs_cons_cons, lcs_cons_cons]
      by_cases h : x = y
      · simp only [if_pos h, if_pos h.symm, ih bs]
      · have h' : ¬ y = x := fun hyx => h hyx.symm
        simp only [if_neg h, if_neg h']
        rw [ihb, ih (y :: bs), Nat.max_comm]

theorem fuzzRatio_comm (s1 s2 : String) : fuzzRatio s1 s2 = fuzzRatio s2 s1 := by
  unfold fuzzRatio
  rw [Nat.add_comm s2.length s1.length, lcs_comm s2.data s1.data]

theorem fuzzRatio_nonneg (s1 s2 : String) : 0 ≤ fuzzRatio s1 s2 := by
  unfold fuzzRatio
  split
  · norm_num
  · positivity

theorem fuzzRatio_le_100 (s1 s2 : String) : fuzzRatio s1 s2 ≤ 100 := by
  unfold fuzzRatio
  split
  · exact le_refl _
  · rename_i h
    have hn : 0 < (((s1.length + s2.length : Nat)) : ℚ) := by
      exact_mod_cast Nat.pos_of_ne_zero h
    rw [div_le_iff₀ hn]
    have h1 : lcs s1.data s2.data ≤ s1.length := lcs_le_left s1.data s2.data
    have h2 : lcs s1.data s2.data ≤ s2.length := lcs_le_right s1.data s2.data
    have hq : (2 * (lcs s1.data s2.data : ℚ)) ≤ ((s1.length + s2.length : Nat) : ℚ) := by
      have : 2 * lcs s1.data s2.data ≤ s1.length + s2.length := by omega
      exact_mod_cast this
    nlinarith

/-! ### Claim theorems -/

/-- C9: the similarity scorer is symmetric and bounded: for every pair of
strings `a` and `b`, `calculate_similarity a b = calculate_similarity b a`,
the returned value lies in the closed unit interval, and
`calculate_similarity a a = 1` for every `a` that does not normalize to
empty. -/
theorem similarity_symm_bounded (a b : String) :
    calculate_similarity a b = calculate_similarity b a ∧
    0 ≤ calculate_similarity a b ∧ calculate_similarity a b ≤ 1 ∧
    (normalize_text a ≠ "" → calculate_similarity a a = 1) := by
  refine ⟨?_, ?_, ?_, ?_⟩
  · unfold calculate_similarity
    by_cases h1 : normalize_text a = "" ∨ normalize_text b = ""
    · rw [if_pos h1, if_pos (Or.symm h1)]
    · rw [if_neg h1, if_neg (fun h => h1 (Or.symm h))]
      by_cases h2 : normalize_text a = normalize_text b
      · rw [if_pos h2, if_pos h2.symm]
      · rw [if_neg h2, if_neg (fun h => h2 h.symm)]
        rw [fuzzRatio_comm]
  · unfold calculate_similarity
    split
    · exact le_refl 0
    · split
      · norm_num
      · have := fuzzRatio_nonneg (normalize_text a) (normalize_text b)
        positivity
  · unfold calculate_similarity
    split
    · norm_num
    · split
      · exact le_refl 1
      · rw [div_le_one (by norm_num)]
        exact fuzzRatio_le_100 _ _
  · intro h
    unfold calculate_similarity
    rw [if_neg (fun hc => h (hc.elim id id)), if_pos rfl]

/-- C9 witness: concrete instance of the conditional part. -/
theorem similarity_symm_bounded_witness :
    normalize_text "abc" ≠ "" ∧ calculate_similarity "abc" "abc" = 1 :=
  ⟨by decide, (similarity_symm_bounded "abc" "xy").2.2.2 (by decide)⟩

/-- C10 counterexample: the claim asserts that `huruf_ke_angka` fails with
a defined error on empty input and on non-alphabetic characters; the code
has no failure path at all: it returns the ordinary integer -1 on the
empty string and folds non-alphabetic characters into the base-26
arithmetic, here mapping "A1" to 10. -/
theorem huruf_ke_angka_never_fails_cex :
    huruf_ke_angka "" = -1 ∧ huruf_ke_angka "A1" = 10 := by
  constructor <;> decide

/-- C10 amended: `huruf_ke_angka` is total and never fails on any input:
the empty string yields -1, non-alphabetic characters yield an ordinary
integer computed from character codes ("A1" yields 10), and every valid
alphabetic input (trimmed, case-insensitive) yields the correct zero-based
column index: A to 0, Z to 25, AA to 26, AZ to 51, also for lower case
with surrounding spaces. -/
theorem huruf_ke_angka_behavior :
    huruf_ke_angka "" = -1 ∧ huruf_ke_angka "A1" = 10 ∧
    huruf_ke_angka "A" = 0 ∧ huruf_ke_angka "Z" = 25 ∧
    huruf_ke_angka "AA" = 26 ∧ huruf_ke_angka "AZ" = 51 ∧
    huruf_ke_angka " az " = 51 := by
  refine ⟨?_, ?_, ?_, ?_, ?_, ?_, ?_⟩ <;> decide

/-- C5 evaluation: on the primary (rapidfuzz) path the code hands the
normalized query but the raw, un-normalized catalog keys to the scorer,
so the query "foo" scores 0 against the single key "FOO" and no match is
returned, although the similarity scorer of the same file (which
normalizes both sides, as the claim, the function's own docstring example
and the difflib fallback require) gives the pair the perfect score 1 at
threshold 0.8. -/
theorem fuzzy_fast_path_skips_key_normalization :
    fuzzy_match_material "foo" [("FOO", ⟨"K1", "T1"⟩)] (8/10) = none ∧
    calculate_similarity "foo" "FOO" = 1 ∧
    fuzzy_match_material_difflib "foo" [("FOO", ⟨"K1", "T1"⟩)] (8/10) =
      some ("FOO", 1) := by
  have hr : fuzzRatio "foo" "FOO" = 0 := by
    have h : lcs "foo".data "FOO".data = 0 := by decide
    have h1 : "foo".length = 3 := rfl
    have h2 : "FOO".length = 3 := rfl
    unfold fuzzRatio
    rw [h, h1, h2]
    norm_num
  refine ⟨?_, by decide, ?_⟩
  · unfold fuzzy_match_material
    rw [if_neg (by decide)]
    have hn : normalize_text "foo" = "foo" := by decide
    simp only [List.map, hn]
    unfold extractOne
    simp only [List.foldl, hr]
    rw [if_pos (by norm_num : (0:ℚ) < 8/10 * 100)]
  · unfold fuzzy_match_material_difflib
    rw [if_neg (by decide)]
    have hc : calculate_similarity "foo" "FOO" = 1 := by decide
    simp only [List.map, List.foldl, hc]
    rw [if_pos (by norm_num : (1:ℚ) > 0), if_pos (by norm_num : (1:ℚ) ≥ 8/10)]

/-- C1: wherever materials are resolved, exact lookup wins over fuzzy
matching: whenever the query name is a stored catalog key, the transform's
resolution returns that key's code and type with no match score and no
matched-with provenance, and the reconciliation pass's resolution returns
that key's code and type, for every catalog and threshold (hence even if
fuzzy matching would also score 1). -/
theorem exact_match_priority (cat : Catalog) (t : ℚ) (nama : String)
    (e : MatEntry) (h : cat.lookup nama = some e) :
    lookup_with_fuzzy cat t nama = ⟨e.kode, e.tipe, none, none⟩ ∧
    reconTarget cat nama = (e.kode, e.tipe) := by
  unfold lookup_with_fuzzy reconTarget
  rw [h]
  exact ⟨rfl, rfl⟩

/-- C1 witness: the catalog of the specification example, storing FOO
with code K1 and type T1, queried with the exact key "FOO". -/
theorem exact_match_priority_witness :
    List.lookup "FOO" ([("FOO", ⟨"K1", "T1"⟩)] : Catalog) =
      some ⟨"K1", "T1"⟩ ∧
    lookup_with_fuzzy [("FOO", ⟨"K1", "T1"⟩)] (8/10) "FOO" =
      ⟨"K1", "T1", none, none⟩ ∧
    reconTarget [("FOO", ⟨"K1", "T1"⟩)] "FOO" = ("K1", "T1") :=
  ⟨by decide,
   (exact_match_priority [("FOO", ⟨"K1", "T1"⟩)] (8/10) "FOO"
     ⟨"K1", "T1"⟩ (by decide)).1,
   (exact_match_priority [("FOO", ⟨"K1", "T1"⟩)] (8/10) "FOO"
     ⟨"K1", "T1"⟩ (by decide)).2⟩

/-- C2: the transform is total.  The embedded body is a total function by
construction, mirroring the try/except wrapper of the source; this
theorem records the two failure conversions: an invalid column mapping
yields the empty table, and an error of the inner body (a failing
dictionary or column access) also yields the empty table instead of
propagating. -/
theorem proses_total_on_failure (df : Grid) (cat : Catalog) (cfg : Config) :
    (validate_config cfg df.ncols = false →
      proses_data_vendor df cat cfg = []) ∧
    (∀ e, prosesInner df cat cfg = .error e →
      proses_data_vendor df cat cfg = []) := by
  constructor
  · intro hv
    unfold proses_data_vendor prosesInner
    rw [if_pos hv]
  · intro e he
    unfold proses_data_vendor
    rw [he]

/-- C2 witness: a mapping whose offset 5 exceeds a two-column grid is
rejected and yields the empty table, and a configuration missing its keys
makes the inner body fail, which the wrapper also converts to the empty
table. -/
theorem proses_total_on_failure_witness :
    validate_config [("c_uraian", ConfigVal.int 5)] 2 = false ∧
    proses_data_vendor ⟨2, []⟩ [] [("c_uraian", ConfigVal.int 5)] = [] ∧
    prosesInner ⟨1, []⟩ [] [] = .error "KeyError" ∧
    proses_data_vendor ⟨1, []⟩ [] [] = [] :=
  ⟨by decide,
   (proses_total_on_failure ⟨2, []⟩ [] [("c_uraian", ConfigVal.int 5)]).1
     (by decide),
   by rfl,
   (proses_total_on_failure ⟨1, []⟩ [] []).2 "KeyError" (by rfl)⟩

/-- C3: the transform's row filter retains a projected row exactly when
its total is strictly positive, its lower-cased name is not the literal
"nan", and its name does not contain "TOTAL" case-insensitively; and on
the specification example with totals 0, 5, -1, 10 and names X, Y,
TOTAL BIAYA, Z, exactly the rows with total 5 (name Y) and total 10
(name Z) survive the whole transform. -/
theorem filter_retention_iff :
    (∀ (l : List WorkRow) (w : WorkRow),
        w ∈ l.filter maskValid ↔
          w ∈ l ∧ 0 < w.total ∧ lowerStr w.nama ≠ "nan" ∧
            containsCI w.nama "TOTAL" = false) ∧
    proses_data_vendor
      ⟨2, [[Cell.str "X", Cell.num 0], [Cell.str "Y", Cell.num 5],
           [Cell.str "TOTAL BIAYA", Cell.num (-1)], [Cell.str "Z", Cell.num 10]]⟩
      []
      [("c_uraian", .int 0), ("c_mat", .int 1), ("c_psg", .int 1),
       ("c_bkr", .int 1), ("c_satuan", .int 0), ("c_total", .int 1)] =
    [⟨"-", "Y", "-", 1, 0, 5, 5, 5⟩, ⟨"-", "Z", "-", 1, 0, 10, 10, 10⟩] := by
  constructor
  · intro l w
    rw [List.mem_filter]
    simp only [maskValid, Bool.and_eq_true, decide_eq_true_eq,
      Bool.not_eq_true', beq_eq_false_iff_ne, ne_eq]
    tauto
  · decide

/-- C4: every result row emitted by the transform splits its material
volume between the PLN warehouse quantity and the Tunai ordered quantity
according to whether its upper-cased unit label is exactly "PLN": the
selected quantity carries the whole volume and the other is 0, so for a
nonzero volume exactly one of the two is nonzero, and for volume 0 both
are 0. -/
theorem pln_tunai_exclusivity (df : Grid) (cat : Catalog) (cfg : Config)
    (r : ResultRow) (hr : r ∈ proses_data_vendor df cat cfg) :
    ∃ w : WorkRow, r = mkResultRow cat (8/10) w ∧
      (w.satuan = "PLN" → r.gudang = w.vol_mat ∧ r.dipesan = 0) ∧
      (w.satuan ≠ "PLN" → r.gudang = 0 ∧ r.dipesan = w.vol_mat) ∧
      (w.vol_mat = 0 → r.gudang = 0 ∧ r.dipesan = 0) ∧
      (w.vol_mat ≠ 0 →
        (r.gudang = w.vol_mat ∧ r.dipesan = 0 ∧ r.gudang ≠ 0) ∨
        (r.dipesan = w.vol_mat ∧ r.gudang = 0 ∧ r.dipesan ≠ 0)) := by
  unfold proses_data_vendor at hr
  split at hr
  case h_2 => exact absurd hr (List.not_mem_nil r)
  case h_1 t heq =>
    unfold prosesInner at heq
    split at heq
    · cases heq
      exact absurd hr (List.not_mem_nil r)
    · split at heq
      · cases heq
      · split at heq
        · cases heq
          exact absurd hr (List.not_mem_nil r)
        · cases heq
          rw [List.mem_map] at hr
          obtain ⟨w, _, hmk⟩ := hr
          subst hmk
          refine ⟨w, rfl, ?_, ?_, ?_, ?_⟩
          · intro hs
            simp [mkResultRow, hs]
          · intro hs
            simp [mkResultRow, hs]
          · intro hv
            simp [mkResultRow, hv]
          · intro hv
            by_cases hs : w.satuan = "PLN"
            · left
              simp [mkResultRow, hs, hv]
            · right
              simp [mkResultRow, hs, hv]

/-- C4 witness: a one-row grid whose unit label is not PLN yields a row
whose whole volume 4 sits in the ordered quantity. -/
theorem pln_tunai_exclusivity_witness :
    (⟨"-", "W", "-", 1, 0, 4, 4, 4⟩ : ResultRow) ∈
      proses_data_vendor ⟨2, [[Cell.str "W", Cell.num 4]]⟩ []
        [("c_uraian", .int 0), ("c_mat", .int 1), ("c_psg", .int 1),
         ("c_bkr", .int 1), ("c_satuan", .int 0), ("c_total", .int 1)] ∧
    ∃ w : WorkRow,
      (⟨"-", "W", "-", 1, 0, 4, 4, 4⟩ : ResultRow) = mkResultRow [] (8/10) w ∧
      (w.satuan = "PLN" →
        (0 : ℚ) = w.vol_mat ∧ (4 : ℚ) = 0) ∧
      (w.satuan ≠ "PLN" →
        (0 : ℚ) = 0 ∧ (4 : ℚ) = w.vol_mat) ∧
      (w.vol_mat = 0 → (0 : ℚ) = 0 ∧ (4 : ℚ) = 0) ∧
      (w.vol_mat ≠ 0 →
        ((0 : ℚ) = w.vol_mat ∧ (4 : ℚ) = 0 ∧ (0 : ℚ) ≠ 0) ∨
        ((4 : ℚ) = w.vol_mat ∧ (0 : ℚ) = 0 ∧ (4 : ℚ) ≠ 0)) :=
  ⟨by decide,
   pln_tunai_exclusivity ⟨2, [[Cell.str "W", Cell.num 4]]⟩ []
     [("c_uraian", .int 0), ("c_mat", .int 1), ("c_psg", .int 1),
      ("c_bkr", .int 1), ("c_satuan", .int 0), ("c_total", .int 1)]
     ⟨"-", "W", "-", 1, 0, 4, 4, 4⟩ (by decide)⟩

theorem updateRow_idem (cat : Catalog) (r : ResultRow) :
    updateRow cat (updateRow cat r).1 = ((updateRow cat r).1, false) := by
  by_cases h1 : strip r.nama = "" ∨ lowerStr (strip r.nama) = "nan"
  · have hin : updateRow cat r = (r, false) := by
      simp only [updateRow]
      rw [if_pos h1]
    rw [hin]
    exact hin
  · by_cases h2 : r.kode ≠ (reconTarget cat (strip r.nama)).1 ∨
        r.tipe ≠ (reconTarget cat (strip r.nama)).2
    · have hin : updateRow cat r =
          ({ r with kode := (reconTarget cat (strip r.nama)).1,
                    tipe := (reconTarget cat (strip r.nama)).2 }, true) := by
        simp only [updateRow]
        rw [if_neg h1, if_pos h2]
      rw [hin]
      simp only [updateRow]
      rw [if_neg h1, if_neg (by simp)]
    · have hin : updateRow cat r = (r, false) := by
        simp only [updateRow]
        rw [if_neg h1, if_neg h2]
      rw [hin]
      exact hin

/-- C6: the reconciliation pass is idempotent: applying it to its own
output with no intervening edits changes no row's code or type and
reports that no change was made. -/
theorem reconcile_idempotent (t : List ResultRow) (cat : Catalog) :
    update_material_codes (update_material_codes t cat).1 cat =
      ((update_material_codes t cat).1, false) := by
  unfold update_material_codes
  simp only [Prod.mk.injEq]
  constructor
  · induction t with
    | nil => rfl
    | cons r rs ih =>
      simp only [List.map_cons]
      rw [congrArg Prod.fst (updateRow_idem cat r)]
      rw [ih]
  · induction t with
    | nil => rfl
    | cons r rs ih =>
      simp only [List.map_cons, List.any_cons]
      rw [congrArg Prod.snd (updateRow_idem cat r)]
      simp only [Bool.false_or]
      exact ih

/-! ### Evaluation lemmas for a concrete fuzzy-matched transform run -/

theorem fuzzRatio_foobaar : fuzzRatio "foo baar" "foo bar" = 280/3 := by
  have h : lcs "foo baar".data "foo bar".data = 7 := by decide
  have h1 : "foo baar".length = 8 := rfl
  have h2 : "foo bar".length = 7 := rfl
  unfold fuzzRatio
  rw [h, h1, h2]
  norm_num

theorem fuzzy_foobaar_08 :
    fuzzy_match_material "foo baar" [("foo bar", ⟨"C1", "T1"⟩)] (8/10) =
      some ("foo bar", 14/15) := by
  unfold fuzzy_match_material
  rw [if_neg (by decide)]
  have hn : normalize_text "foo baar" = "foo baar" := by decide
  simp only [List.map, hn]
  unfold extractOne
  simp only [List.foldl, fuzzRatio_foobaar]
  rw [if_neg (by norm_num : ¬((280:ℚ)/3 < 8/10 * 100))]
  dsimp only
  rw [show (280:ℚ)/3 / 100 = 14/15 from by norm_num]

theorem fuzzy_foobaar_099 :
    fuzzy_match_material "foo baar" [("foo bar", ⟨"C1", "T1"⟩)] (99/100) =
      none := by
  unfold fuzzy_match_material
  rw [if_neg (by decide)]
  have hn : normalize_text "foo baar" = "foo baar" := by decide
  simp only [List.map, hn]
  unfold extractOne
  simp only [List.foldl, fuzzRatio_foobaar]
  rw [if_pos (by norm_num : ((280:ℚ)/3 < 99/100 * 100))]

theorem lookup_foobaar :
    lookup_with_fuzzy [("foo bar", ⟨"C1", "T1"⟩)] (8/10) "foo baar" =
      ⟨"C1", "T1", some (14/15 * 100), some "foo bar"⟩ := by
  unfold lookup_with_fuzzy
  rw [show (List.lookup "foo baar"
    ([("foo bar", ⟨"C1", "T1"⟩)] : Catalog)) = none from rfl]
  rw [fuzzy_foobaar_08]
  rfl

theorem mk_foobaar :
    mkResultRow [("foo bar", ⟨"C1", "T1"⟩)] (8/10)
      ⟨"foo baar", 7, 7, 7, "FOO BAAR", 7⟩ =
      ⟨"C1", "foo baar", "T1", 1, 0, 7, 7, 7⟩ := by
  simp only [mkResultRow, lookup_foobaar]
  rfl

/-- Evaluation of the transform on a one-row grid whose name "foo baar"
fuzzy-matches the sole catalog key "foo bar" with score 14/15, for any
configuration mapping the six fields to columns 0 and 1 of a two-column
grid. -/
theorem proses_foobaar_eval (cfg : Config)
    (hv : ¬(validate_config cfg 2 = false))
    (hc : cfgCols cfg = .ok (0, 1, 1, 1, 0, 1)) :
    proses_data_vendor ⟨2, [[Cell.str "foo baar", Cell.num 7]]⟩
      [("foo bar", ⟨"C1", "T1"⟩)] cfg =
      [⟨"C1", "foo baar", "T1", 1, 0, 7, 7, 7⟩] := by
  unfold proses_data_vendor prosesInner
  rw [if_neg hv, hc]
  dsimp only
  have hf : ((⟨2, [[Cell.str "foo baar", Cell.num 7]]⟩ : Grid).rows.map
      (projectRow 0 1 1 1 0 1)).filter maskValid =
      [⟨"foo baar", 7, 7, 7, "FOO BAAR", 7⟩] := by decide
  rw [hf]
  rw [if_neg (by decide :
    ¬([(⟨"foo baar", 7, 7, 7, "FOO BAAR", 7⟩ : WorkRow)] = []))]
  simp only [List.map_cons, List.map_nil, mk_foobaar]

/-- C7 counterexample: a transform run whose single row was resolved by
fuzzy matching (its name is not a catalog key, yet its code is C1): the
summary of that output reports the row under exact_matched and reports
fuzzy_matched as 0, because the transform's result table does not carry
the Match Score column; and the summary of the empty table has no
total_pasang entry at all. -/
theorem summary_fuzzy_count_cex :
    List.lookup "foo baar" ([("foo bar", ⟨"C1", "T1"⟩)] : Catalog) = none ∧
    (proses_data_vendor ⟨2, [[Cell.str "foo baar", Cell.num 7]]⟩
        [("foo bar", ⟨"C1", "T1"⟩)]
        [("c_uraian", .int 0), ("c_mat", .int 1), ("c_psg", .int 1),
         ("c_bkr", .int 1), ("c_satuan", .int 0),
         ("c_total", .int 1)]).map ResultRow.kode = ["C1"] ∧
    (generate_summary (proses_data_vendor
        ⟨2, [[Cell.str "foo baar", Cell.num 7]]⟩
        [("foo bar", ⟨"C1", "T1"⟩)]
        [("c_uraian", .int 0), ("c_mat", .int 1), ("c_psg", .int 1),
         ("c_bkr", .int 1), ("c_satuan", .int 0),
         ("c_total", .int 1)])).lookup "fuzzy_matched" = some 0 ∧
    (generate_summary (proses_data_vendor
        ⟨2, [[Cell.str "foo baar", Cell.num 7]]⟩
        [("foo bar", ⟨"C1", "T1"⟩)]
        [("c_uraian", .int 0), ("c_mat", .int 1), ("c_psg", .int 1),
         ("c_bkr", .int 1), ("c_satuan", .int 0),
         ("c_total", .int 1)])).lookup "exact_matched" = some 1 ∧
    (generate_summary []).lookup "total_pasang" = none := by
  have he := proses_foobaar_eval
    [("c_uraian", .int 0), ("c_mat", .int 1), ("c_psg", .int 1),
     ("c_bkr", .int 1), ("c_satuan", .int 0), ("c_total", .int 1)]
    (by decide) (by rfl)
  refine ⟨by decide, ?_, ?_, ?_, by rfl⟩
  · rw [he]
    exact rfl
  · rw [he]
    exact rfl
  · rw [he]
    have h2 : (generate_summary
        [⟨"C1", "foo baar", "T1", 1, 0, 7, 7, 7⟩]).lookup "exact_matched" =
        some (((1 : Nat) : ℚ) - 0) := rfl
    rw [h2]
    norm_num

/-- C7 amended: the summary statistics are derived purely from the given
table (the embedded function has no other input), but: the transform's
output omits the Match Score column, so fuzzy_matched is always 0 and
exact_matched always equals matched, counting fuzzy-resolved rows as
exact; and on the empty table the early-return branch omits the
total_pasang and total_bongkar entries, which are present with the
expected sums exactly for nonempty tables, as are the count fields. -/
theorem summary_fields_amended (df : List ResultRow) :
    (generate_summary df).lookup "fuzzy_matched" = some 0 ∧
    (generate_summary df).lookup "exact_matched" =
      (generate_summary df).lookup "matched" ∧
    (df = [] → (generate_summary df).lookup "total_pasang" = none ∧
      (generate_summary df).lookup "total_bongkar" = none) ∧
    (df ≠ [] →
      (generate_summary df).lookup "total_items" = some (df.length : ℚ) ∧
      (generate_summary df).lookup "matched" =
        some (df.countP (fun r => r.kode != "-") : ℚ) ∧
      (generate_summary df).lookup "exact_matched" =
        some (df.countP (fun r => r.kode != "-") : ℚ) ∧
      (generate_summary df).lookup "unmatched" =
        some (df.countP (fun r => r.kode == "-") : ℚ) ∧
      (generate_summary df).lookup "pln_items" =
        some (df.countP (fun r => decide (0 < r.gudang)) : ℚ) ∧
      (generate_summary df).lookup "tunai_items" =
        some (df.countP (fun r => decide (0 < r.dipesan)) : ℚ) ∧
      (generate_summary df).lookup "total_pasang" =
        some ((df.map ResultRow.pasang).sum) ∧
      (generate_summary df).lookup "total_bongkar" =
        some ((df.map ResultRow.bongkar).sum)) := by
  by_cases h : df = []
  · subst h
    exact ⟨rfl, rfl, fun _ => ⟨rfl, rfl⟩, fun hne => absurd rfl hne⟩
  · refine ⟨?_, ?_, fun he => absurd he h, fun _ => ?_⟩
    · unfold generate_summary
      rw [if_neg h]
      exact rfl
    · unfold generate_summary
      rw [if_neg h]
      show some ((df.countP (fun r => r.kode != "-") : ℚ) - 0) =
        some ((df.countP (fun r => r.kode != "-") : ℚ))
      rw [sub_zero]
    · refine ⟨?_, ?_, ?_, ?_, ?_, ?_, ?_, ?_⟩
      · unfold generate_summary; rw [if_neg h]; exact rfl
      · unfold generate_summary; rw [if_neg h]; exact rfl
      · unfold generate_summary
        rw [if_neg h]
        show some ((df.countP (fun r => r.kode != "-") : ℚ) - 0) =
          some ((df.countP (fun r => r.kode != "-") : ℚ))
        rw [sub_zero]
      · unfold generate_summary; rw [if_neg h]; exact rfl
      · unfold generate_summary; rw [if_neg h]; exact rfl
      · unfold generate_summary; rw [if_neg h]; exact rfl
      · unfold generate_summary; rw [if_neg h]; exact rfl
      · unfold generate_summary; rw [if_neg h]; exact rfl

/-- C7 amended witness: a nonempty one-row table instantiating the
nonempty branch. -/
theorem summary_fields_amended_witness :
    (([⟨"-", "A", "-", 1, 0, 0, 3, 4⟩] : List ResultRow) ≠ []) ∧
    (generate_summary
        [⟨"-", "A", "-", 1, 0, 0, 3, 4⟩]).lookup "total_pasang" =
      some ((([⟨"-", "A", "-", 1, 0, 0, 3, 4⟩] :
        List ResultRow).map ResultRow.pasang).sum) :=
  ⟨by decide,
   ((summary_fields_amended [⟨"-", "A", "-", 1, 0, 0, 3, 4⟩]).2.2.2
     (by decide)).2.2.2.2.2.2.1⟩

/-! ### Lemmas about configuration entries the transform ignores -/

theorem lookup_append_single (l : Config) (k k' : String) (v : ConfigVal)
    (h : (k == k') = false) :
    (l ++ [(k', v)]).lookup k = l.lookup k := by
  induction l with
  | nil => simp [List.lookup, h]
  | cons a tl ih =>
    simp only [List.cons_append, List.lookup]
    cases hk : (k == a.1) <;> simp [hk, ih]

theorem validate_config_append_num (cfg : Config) (t : ℚ) (n : Nat) :
    validate_config (cfg ++ [("fuzzy_threshold", ConfigVal.num t)]) n =
      validate_config cfg n := by
  simp [validate_config, List.all_append]

theorem cfgGetInt_append (cfg : Config) (k : String) (t : ℚ)
    (h : (k == "fuzzy_threshold") = false) :
    cfgGetInt (cfg ++ [("fuzzy_threshold", ConfigVal.num t)]) k =
      cfgGetInt cfg k := by
  unfold cfgGetInt
  rw [lookup_append_single cfg k "fuzzy_threshold" (ConfigVal.num t) h]

theorem cfgCols_append (cfg : Config) (t : ℚ) :
    cfgCols (cfg ++ [("fuzzy_threshold", ConfigVal.num t)]) = cfgCols cfg := by
  unfold cfgCols
  simp only [cfgGetInt_append cfg "c_uraian" t (by decide),
    cfgGetInt_append cfg "c_mat" t (by decide),
    cfgGetInt_append cfg "c_psg" t (by decide),
    cfgGetInt_append cfg "c_bkr" t (by decide),
    cfgGetInt_append cfg "c_satuan" t (by decide),
    cfgGetInt_append cfg "c_total" t (by decide)]

/-- C8 counterexample: a configuration supplying the fuzzy threshold
99/100 still matches a pair scoring 14/15: the transform resolves the
row to code C1 although fuzzy matching at the supplied cutoff 99/100
returns no match, so the supplied threshold is not the cutoff applied. -/
theorem threshold_not_configurable_cex :
    (proses_data_vendor ⟨2, [[Cell.str "foo baar", Cell.num 7]]⟩
        [("foo bar", ⟨"C1", "T1"⟩)]
        [("c_uraian", .int 0), ("c_mat", .int 1), ("c_psg", .int 1),
         ("c_bkr", .int 1), ("c_satuan", .int 0), ("c_total", .int 1),
         ("fuzzy_threshold", ConfigVal.num (99/100))]).map ResultRow.kode =
      ["C1"] ∧
    fuzzy_match_material "foo baar" [("foo bar", ⟨"C1", "T1"⟩)] (99/100) =
      none := by
  refine ⟨?_, fuzzy_foobaar_099⟩
  rw [proses_foobaar_eval _ (by decide) (by rfl)]
  exact rfl

/-- C8 amended: the transform's fuzzy threshold is the fixed literal 0.8
for every invocation and is not configurable: supplying a fuzzy_threshold
entry in the configuration leaves the output unchanged for every grid,
catalog, configuration and supplied value. -/
theorem threshold_entry_ignored (df : Grid) (cat : Catalog) (cfg : Config)
    (t : ℚ) :
    proses_data_vendor df cat
        (cfg ++ [("fuzzy_threshold", ConfigVal.num t)]) =
      proses_data_vendor df cat cfg := by
  unfold proses_data_vendor prosesInner
  rw [validate_config_append_num cfg t df.ncols, cfgCols_append cfg t]

end PKLPLN
